import Mathlib

/-!
Shallow embedding of the Databricks SQL middleware example
(src/examples/azure-functions/python/databricks_client.py and
src/examples/azure-functions/python/function_app.py).

Remote HTTP exchanges are modelled as explicit inputs: each client
operation takes the outcome of its single outbound call (a parsed
response body, or the message of the exception raised by the HTTP
layer), and each router handler takes the outcome of the one client
call it makes.  JSON payloads built by the handlers are modelled as
ordered association lists, mirroring dict insertion order.
-/

set_option autoImplicit false

/-- Databricks statement execution states (class StatementState). -/
inductive StatementState where
  | PENDING
  | RUNNING
  | SUCCEEDED
  | FAILED
  | CANCELED
  | CLOSED
  deriving DecidableEq, BEq, Repr

/-- The string value of each enum member (the .value attribute). -/
def StatementState.value : StatementState → String
  | .PENDING => "PENDING"
  | .RUNNING => "RUNNING"
  | .SUCCEEDED => "SUCCEEDED"
  | .FAILED => "FAILED"
  | .CANCELED => "CANCELED"
  | .CLOSED => "CLOSED"

/-- Constructing a StatementState from a string: Python
StatementState(s) returns the member whose value is s and raises
ValueError otherwise, modelled as none. -/
def StatementState.ofString (s : String) : Option StatementState :=
  if s = "PENDING" then some .PENDING
  else if s = "RUNNING" then some .RUNNING
  else if s = "SUCCEEDED" then some .SUCCEEDED
  else if s = "FAILED" then some .FAILED
  else if s = "CANCELED" then some .CANCELED
  else if s = "CLOSED" then some .CLOSED
  else none

/-- A JSON scalar cell inside a result row (Python Any in data_array). -/
inductive Cell where
  | cnull
  | cbool (b : Bool)
  | cnum (n : Int)
  | cstr (s : String)
  deriving DecidableEq, Repr

/-- A normalized column descriptor, the dict
with name and type built by the response parser. -/
structure Column where
  name : String
  type : String
  deriving DecidableEq, Repr

/-- Result from execute_statement or get_chunk (dataclass StatementResult). -/
structure StatementResult where
  statement_id : String
  state : StatementState
  total_chunk_count : Option Int := none
  total_row_count : Option Int := none
  columns : Option (List Column) := none
  data : Option (List (List Cell)) := none
  chunk_index : Option Int := none
  error_message : Option String := none
  deriving DecidableEq, Repr

/-- The status.error object of a remote statement response. -/
structure ErrorBlock where
  message : Option String
  deriving DecidableEq, Repr

/-- The status object of a remote statement response. -/
structure StatusBlock where
  state : Option String
  error : Option ErrorBlock
  deriving DecidableEq, Repr

/-- One entry of manifest.schema.columns; name is a required key
(read with brackets), type_name optional (read with .get). -/
structure ColumnBlock where
  name : String
  type_name : Option String
  deriving DecidableEq, Repr

/-- The manifest.schema object of a remote statement response. -/
structure SchemaBlock where
  columns : Option (List ColumnBlock)
  deriving DecidableEq, Repr

/-- The manifest object of a remote statement response. -/
structure ManifestBlock where
  schema : Option SchemaBlock
  total_chunk_count : Option Int
  total_row_count : Option Int
  deriving DecidableEq, Repr

/-- The result object of a remote statement response. -/
structure ResultBlock where
  data_array : Option (List (List Cell))
  chunk_index : Option Int
  deriving DecidableEq, Repr

/-- A remote response body to a Submit or Poll call, with every field
the parser reads; an absent key is none. -/
structure StatementResponseBody where
  statement_id : Option String
  status : Option StatusBlock
  manifest : Option ManifestBlock
  result : Option ResultBlock
  deriving DecidableEq, Repr

/-- A remote response body to a chunk fetch call. -/
structure ChunkResponseBody where
  chunk_index : Option Int
  data_array : Option (List (List Cell))
  deriving DecidableEq, Repr

/-- DatabricksClient._parse_statement_response: normalize a Databricks
API response into a StatementResult; the error case is the ValueError
raised by StatementState(...) on an unrecognized state string. -/
def DatabricksClient.parse_statement_response
    (body : StatementResponseBody) : Except String StatementResult :=
  let status := body.status.getD ⟨none, none⟩
  match StatementState.ofString (status.state.getD "PENDING") with
  | none => .error "invalid StatementState"
  | some state =>
    let manifest := body.manifest.getD ⟨none, none, none⟩
    let result := body.result.getD ⟨none, none⟩
    let error_msg : Option String :=
      if state = .FAILED then
        some ((status.error.getD ⟨none⟩).message.getD "Unknown error")
      else none
    let columns : Option (List Column) :=
      match manifest.schema with
      | some schema =>
        some ((schema.columns.getD []).map
          (fun c => ⟨c.name, c.type_name.getD "string"⟩))
      | none => none
    .ok
      { statement_id := body.statement_id.getD ""
        state := state
        total_chunk_count := manifest.total_chunk_count
        total_row_count := manifest.total_row_count
        columns := columns
        data := result.data_array
        chunk_index := result.chunk_index
        error_message := error_msg }

/-- DatabricksClient.execute_statement: POST the statement, raise for a
non-2xx status (the error side of the remote outcome), then parse. -/
def DatabricksClient.execute_statement
    (remote : Except String StatementResponseBody) :
    Except String StatementResult :=
  match remote with
  | .error e => .error e
  | .ok body => DatabricksClient.parse_statement_response body

/-- DatabricksClient.get_statement_status: GET the statement, raise for
a non-2xx status, then parse identically to execute_statement. -/
def DatabricksClient.get_statement_status
    (remote : Except String StatementResponseBody) :
    Except String StatementResult :=
  match remote with
  | .error e => .error e
  | .ok body => DatabricksClient.parse_statement_response body

/-- DatabricksClient.get_chunk: GET one chunk, raise for a non-2xx
status, and build a StatementResult directly (no parse): state is
SUCCEEDED, chunk_index and data come from the body, all other optional
fields stay at their dataclass defaults. -/
def DatabricksClient.get_chunk (statement_id : String) (chunk_index : Int)
    (remote : Except String ChunkResponseBody) :
    Except String StatementResult :=
  match remote with
  | .error e => .error e
  | .ok body =>
    .ok
      { statement_id := statement_id
        state := .SUCCEEDED
        chunk_index := body.chunk_index
        data := body.data_array }

/-- DatabricksClient.cancel_statement: POST cancel and report whether
the remote status code equals 200; no raise_for_status is called. -/
def DatabricksClient.cancel_statement (status_code : Nat) : Bool :=
  status_code == 200

/-- Strip trailing slashes, as host.rstrip applied in the constructor. -/
def rstripSlashes (s : String) : String :=
  ⟨(s.data.reverse.dropWhile (fun c => c = '/')).reverse⟩

/-- The ValueError message of DatabricksClient.__init__. -/
def missingConfigMsg : String :=
  "Missing Databricks config. Set DATABRICKS_HOST, DATABRICKS_TOKEN, and DATABRICKS_WAREHOUSE_ID environment variables."

/-- DatabricksClient.__init__ configuration handling: resolve host,
token and warehouse id (empty string models an absent environment
variable), strip trailing slashes from the host, and raise ValueError
unless all three are non-empty; returns the stripped host. -/
def DatabricksClient.init (host token warehouse_id : String) :
    Except String String :=
  let host := rstripSlashes host
  if host = "" ∨ token = "" ∨ warehouse_id = "" then
    .error missingConfigMsg
  else
    .ok host

/-- Python truthiness of an optional string route/body value:
not statement is true exactly when the value is absent or empty. -/
def pyTruthy (s : Option String) : Bool :=
  match s with
  | none => false
  | some s => !(s == "")

/-- All-digit parse of a character list into a number; none when the
list is empty or holds a non-digit. -/
def parseDigits (cs : List Char) : Option Nat :=
  match cs with
  | [] => none
  | _ =>
    cs.foldl
      (fun acc c =>
        acc.bind (fun n => if c.isDigit then some (n * 10 + (c.toNat - 48)) else none))
      (some 0)

/-- Python int(str) applied to an optional string: TypeError on none,
otherwise strip surrounding whitespace, allow one sign, and require
decimal digits; ValueError (none) on anything else. -/
def pyInt (s : Option String) : Option Int :=
  match s with
  | none => none
  | some str =>
    let cs := str.data.dropWhile Char.isWhitespace
    let cs := (cs.reverse.dropWhile Char.isWhitespace).reverse
    match cs with
    | '-' :: rest => (parseDigits rest).map (fun n => -(n : Int))
    | '+' :: rest => (parseDigits rest).map (fun n => (n : Int))
    | rest => (parseDigits rest).map (fun n => (n : Int))

/-- Whether needle occurs as a prefix of hay (on character lists). -/
def isPrefixChars : List Char → List Char → Bool
  | [], _ => true
  | _ :: _, [] => false
  | a :: as, b :: bs => a == b && isPrefixChars as bs

/-- Whether needle occurs as a contiguous substring of hay. -/
def containsSubChars (needle : List Char) : List Char → Bool
  | [] => needle.isEmpty
  | b :: bs => isPrefixChars needle (b :: bs) || containsSubChars needle bs

/-- Python "needle in hay" on strings. -/
def strContains (hay needle : String) : Bool :=
  containsSubChars needle.data hay.data

/-- Python str.lower, character by character. -/
def strLower (s : String) : String :=
  ⟨s.data.map Char.toLower⟩

/-- The not-found test of the chunk handler:
"404" in error_msg or "not found" in error_msg.lower(). -/
def is404Class (error_msg : String) : Bool :=
  strContains error_msg "404" || strContains (strLower error_msg) "not found"

/-- A JSON value appearing in an outbound payload field. -/
inductive JField where
  | fnull
  | fbool (b : Bool)
  | fnum (n : Int)
  | fstr (s : String)
  | fcols (cols : List Column)
  | fdata (rows : List (List Cell))
  | fchunk (chunkIndex : Nat) (rowCount : Nat) (data : List (List Cell))
  deriving DecidableEq, Repr

/-- An optional string rendered as a JSON field (null when absent). -/
def optStrField : Option String → JField
  | none => .fnull
  | some s => .fstr s

/-- An optional integer rendered as a JSON field (null when absent). -/
def optIntField : Option Int → JField
  | none => .fnull
  | some n => .fnum n

/-- An optional data array rendered as a JSON field (null when absent). -/
def optDataField : Option (List (List Cell)) → JField
  | none => .fnull
  | some rows => .fdata rows

/-- An outbound HTTP response: status code and JSON object body as an
ordered association list of fields. -/
structure HttpResponse where
  status_code : Nat
  body : List (String × JField)
  deriving DecidableEq, Repr

/-- json_response: serialize a payload with the given status. -/
def json_response (data : List (String × JField)) (status : Nat := 200) :
    HttpResponse :=
  ⟨status, data⟩

/-- error_response: a JSON body with a single error field. -/
def error_response (message : String) (status : Nat) : HttpResponse :=
  json_response [("error", .fstr message)] status

/-- STATE_TO_HTTP, the fixed state-to-status dict literal. -/
def STATE_TO_HTTP : List (StatementState × Nat) :=
  [(.PENDING, 202), (.RUNNING, 202), (.SUCCEEDED, 200),
   (.FAILED, 500), (.CANCELED, 410), (.CLOSED, 410)]

/-- STATE_TO_HTTP.get(state, HTTPStatus.OK): dict lookup with 200 as
the default. -/
def stateToHttp (state : StatementState) : Nat :=
  (STATE_TO_HTTP.lookup state).getD 200

/-- The outcome of one router handler invocation: the outbound
response, and whether the handler reached its try block and invoked
the Execution Client (false exactly on a validation early return). -/
structure RouterOutcome where
  response : HttpResponse
  clientCalled : Bool
  deriving DecidableEq, Repr

/-- An inbound execute request body: req.get_json() parsed fields. -/
structure ExecuteBody where
  statement : Option String
  parameters : Option (List (String × String))
  deriving DecidableEq, Repr

/-- Router handler execute_query: body is none when req.get_json()
raises ValueError; clientResult is the outcome of the
client.execute_statement call (the error side carries the message of
any exception raised inside the try block). -/
def execute_query (body : Option ExecuteBody)
    (clientResult : Except String StatementResult) : RouterOutcome :=
  match body with
  | none => ⟨error_response "Invalid JSON body" 400, false⟩
  | some b =>
    if pyTruthy b.statement = false then
      ⟨error_response "Missing 'statement' field" 400, false⟩
    else
      match clientResult with
      | .error e => ⟨error_response e 500, true⟩
      | .ok result =>
        let http_status := stateToHttp result.state
        let base := [("statementId", JField.fstr result.statement_id),
                     ("state", JField.fstr result.state.value)]
        if result.state = .FAILED then
          ⟨json_response (base ++ [("error", optStrField result.error_message)]) 500,
           true⟩
        else
          let d := base
            ++ (match result.total_chunk_count with
                | some n => [("totalChunks", JField.fnum n)]
                | none => [])
            ++ (match result.total_row_count with
                | some n => [("totalRows", JField.fnum n)]
                | none => [])
            ++ (match result.columns with
                | some cols => if cols = [] then [] else [("columns", JField.fcols cols)]
                | none => [])
            ++ (match result.data with
                | some rows =>
                  if result.state = .SUCCEEDED then
                    [("firstChunk", JField.fchunk 0 rows.length rows)]
                  else []
                | none => [])
          ⟨json_response d http_status, true⟩

/-- Router handler get_chunk: route params are optional strings;
clientResult is the outcome of the client.get_chunk call. -/
def get_chunk (statement_id chunk_index_str : Option String)
    (clientResult : Except String StatementResult) : RouterOutcome :=
  if pyTruthy statement_id = false then
    ⟨error_response "Missing statementId" 400, false⟩
  else
    match pyInt chunk_index_str with
    | none => ⟨error_response "Invalid chunkIndex" 400, false⟩
    | some _ =>
      match clientResult with
      | .ok result =>
        ⟨json_response
          [("chunkIndex", optIntField result.chunk_index),
           ("rowCount", JField.fnum
             (match result.data with
              | some rows => if rows = [] then 0 else (rows.length : Int)
              | none => 0)),
           ("data", optDataField result.data)] 200,
         true⟩
      | .error e =>
        if is404Class e then
          ⟨error_response "Statement not found or cache expired. Re-execute query." 410,
           true⟩
        else
          ⟨error_response e 500, true⟩

/-- Router handler get_status: clientResult is the outcome of the
client.get_statement_status call. -/
def get_status (statement_id : Option String)
    (clientResult : Except String StatementResult) : RouterOutcome :=
  if pyTruthy statement_id = false then
    ⟨error_response "Missing statementId" 400, false⟩
  else
    match clientResult with
    | .error e => ⟨error_response e 500, true⟩
    | .ok result =>
      let http_status := stateToHttp result.state
      let base := [("statementId", JField.fstr result.statement_id),
                   ("state", JField.fstr result.state.value)]
      let d := base
        ++ (if result.state = .FAILED then
              [("error", optStrField result.error_message)]
            else [])
        ++ (match result.total_chunk_count with
            | some n => [("totalChunks", JField.fnum n)]
            | none => [])
        ++ (match result.total_row_count with
            | some n => [("totalRows", JField.fnum n)]
            | none => [])
        ++ (match result.columns with
            | some cols => if cols = [] then [] else [("columns", JField.fcols cols)]
            | none => [])
      ⟨json_response d http_status, true⟩

/-- Router handler cancel_query: cancelCall is the outcome of the
client.cancel_statement call (a boolean, or a raised exception). -/
def cancel_query (statement_id : Option String)
    (cancelCall : Except String Bool) : RouterOutcome :=
  if pyTruthy statement_id = false then
    ⟨error_response "Missing statementId" 400, false⟩
  else
    match cancelCall with
    | .error e => ⟨error_response e 500, true⟩
    | .ok success =>
      if success then
        ⟨json_response [("cancelled", .fbool true)] 200, true⟩
      else
        ⟨error_response "Failed to cancel" 500, true⟩

/-- get_databricks_client followed by client.execute_statement, as the
execute handler performs them inside its try block: a configuration
ValueError from the constructor preempts the remote call. -/
def configuredExecute (host token warehouse_id : String)
    (remote : Except String StatementResponseBody) :
    Except String StatementResult :=
  match DatabricksClient.init host token warehouse_id with
  | .error e => .error e
  | .ok _ => DatabricksClient.execute_statement remote

/-- C1: for every StatementResult produced by normalizing a Submit or
Poll response, error_message is non-null iff state is Failed; and when
state is Failed but the response carries no error object,
error_message is the fixed placeholder "Unknown error". -/
theorem c1_error_message_iff_failed (body : StatementResponseBody)
    (r : StatementResult)
    (h : DatabricksClient.parse_statement_response body = .ok r) :
    (r.error_message ≠ none ↔ r.state = .FAILED) ∧
    (r.state = .FAILED → (body.status.getD ⟨none, none⟩).error = none →
      r.error_message = some "Unknown error") := by
  cases hof : StatementState.ofString
      ((body.status.getD ⟨none, none⟩).state.getD "PENDING") with
  | none =>
    simp [DatabricksClient.parse_statement_response, hof] at h
  | some st =>
    simp [DatabricksClient.parse_statement_response, hof] at h
    subst h
    by_cases hf : st = StatementState.FAILED
    · subst hf
      constructor
      · simp
      · intro _ herr
        simp [herr]
    · constructor
      · simp [hf]
      · intro hcontra
        exact absurd hcontra hf

/-- C1 witness: instantiation at a Failed response with no error object. -/
theorem c1_witness :
    DatabricksClient.parse_statement_response
        ⟨none, some ⟨some "FAILED", none⟩, none, none⟩ =
      .ok ⟨"", .FAILED, none, none, none, none, none, some "Unknown error"⟩ ∧
    ((⟨"", .FAILED, none, none, none, none, none, some "Unknown error"⟩ :
        StatementResult).error_message ≠ none ↔
      (⟨"", .FAILED, none, none, none, none, none, some "Unknown error"⟩ :
        StatementResult).state = .FAILED) := by
  refine ⟨rfl, ?_⟩
  exact (c1_error_message_iff_failed
    ⟨none, some ⟨some "FAILED", none⟩, none, none⟩
    ⟨"", .FAILED, none, none, none, none, none, some "Unknown error"⟩
    rfl).1

/-- Helper: when the state string parses, normalization returns the
fully spelled-out result. -/
theorem parse_ok_of_state (body : StatementResponseBody) (st : StatementState)
    (hof : StatementState.ofString
      ((body.status.getD ⟨none, none⟩).state.getD "PENDING") = some st) :
    DatabricksClient.parse_statement_response body = .ok
      { statement_id := body.statement_id.getD ""
        state := st
        total_chunk_count := (body.manifest.getD ⟨none, none, none⟩).total_chunk_count
        total_row_count := (body.manifest.getD ⟨none, none, none⟩).total_row_count
        columns :=
          match (body.manifest.getD ⟨none, none, none⟩).schema with
          | some schema => some ((schema.columns.getD []).map
              (fun c => ⟨c.name, c.type_name.getD "string"⟩))
          | none => none
        data := (body.result.getD ⟨none, none⟩).data_array
        chunk_index := (body.result.getD ⟨none, none⟩).chunk_index
        error_message :=
          if st = .FAILED then
            some (((body.status.getD ⟨none, none⟩).error.getD ⟨none⟩).message.getD
              "Unknown error")
          else none } := by
  simp [DatabricksClient.parse_statement_response, hof]

/-- Helper: when the state string does not parse, normalization raises. -/
theorem parse_error_of_state (body : StatementResponseBody)
    (hof : StatementState.ofString
      ((body.status.getD ⟨none, none⟩).state.getD "PENDING") = none) :
    DatabricksClient.parse_statement_response body =
      .error "invalid StatementState" := by
  simp [DatabricksClient.parse_statement_response, hof]

/-- C3: normalization is total over every Submit/Poll response body —
it fails exactly when the (present or defaulted) state string is
unparseable; an absent status.state defaults the state to Pending; a
Failed state with no error object defaults the message to
"Unknown error"; columns are mapped from manifest.schema.columns with
an untyped column defaulting its type to "string". -/
theorem c3_normalization_total (body : StatementResponseBody) :
    ((∃ e, DatabricksClient.parse_statement_response body = .error e) ↔
      StatementState.ofString
        ((body.status.getD ⟨none, none⟩).state.getD "PENDING") = none) ∧
    ((body.status.getD ⟨none, none⟩).state = none →
      ∃ r, DatabricksClient.parse_statement_response body = .ok r ∧
        r.state = .PENDING) ∧
    (∀ r, DatabricksClient.parse_statement_response body = .ok r →
      r.state = .FAILED → (body.status.getD ⟨none, none⟩).error = none →
      r.error_message = some "Unknown error") ∧
    (∀ r sch, DatabricksClient.parse_statement_response body = .ok r →
      (body.manifest.getD ⟨none, none, none⟩).schema = some sch →
      r.columns = some ((sch.columns.getD []).map
        (fun c => ⟨c.name, c.type_name.getD "string"⟩))) := by
  refine ⟨?_, ?_, ?_, ?_⟩
  · constructor
    · rintro ⟨e, he⟩
      cases hof : StatementState.ofString
          ((body.status.getD ⟨none, none⟩).state.getD "PENDING") with
      | none => rfl
      | some st => rw [parse_ok_of_state body st hof] at he; exact Except.noConfusion he
    · intro hof
      exact ⟨"invalid StatementState", parse_error_of_state body hof⟩
  · intro hs
    have hof : StatementState.ofString
        ((body.status.getD ⟨none, none⟩).state.getD "PENDING") = some .PENDING := by
      rw [hs]
      simp [StatementState.ofString]
    exact ⟨_, parse_ok_of_state body .PENDING hof, rfl⟩
  · intro r hr hf herr
    cases hof : StatementState.ofString
        ((body.status.getD ⟨none, none⟩).state.getD "PENDING") with
    | none => rw [parse_error_of_state body hof] at hr; exact Except.noConfusion hr
    | some st =>
      rw [parse_ok_of_state body st hof] at hr
      injection hr with hr
      subst hr
      simp only at hf
      subst hf
      simp [herr]
  · intro r sch hr hsch
    cases hof : StatementState.ofString
        ((body.status.getD ⟨none, none⟩).state.getD "PENDING") with
    | none => rw [parse_error_of_state body hof] at hr; exact Except.noConfusion hr
    | some st =>
      rw [parse_ok_of_state body st hof] at hr
      injection hr with hr
      subst hr
      simp [hsch]

/-- C3 witness: the empty response body normalizes to a Pending result. -/
theorem c3_witness :
    ∃ r, DatabricksClient.parse_statement_response ⟨none, none, none, none⟩ =
        .ok r ∧ r.state = .PENDING :=
  (c3_normalization_total ⟨none, none, none, none⟩).2.1 rfl

/-- C2: the router maps each of the six statement states by the fixed
table (Pending/Running to 202, Succeeded to 200, Failed to 500 with
the error message in the payload, Canceled/Closed to 410); the dict is
exhaustive over the six states so the lookup default never fires; and
an unrecognized state string makes normalization raise instead of
silently defaulting. -/
theorem c2_state_to_http_table :
    (stateToHttp .PENDING = 202 ∧ stateToHttp .RUNNING = 202 ∧
     stateToHttp .SUCCEEDED = 200 ∧ stateToHttp .FAILED = 500 ∧
     stateToHttp .CANCELED = 410 ∧ stateToHttp .CLOSED = 410) ∧
    (∀ st : StatementState, STATE_TO_HTTP.lookup st ≠ none) ∧
    (∀ sid : Option String, ∀ result : StatementResult,
      pyTruthy sid = true → result.state = .FAILED →
      (get_status sid (.ok result)).response.status_code = 500 ∧
      ("error", optStrField result.error_message) ∈
        (get_status sid (.ok result)).response.body) ∧
    (∀ body : StatementResponseBody, ∀ s : String,
      (body.status.getD ⟨none, none⟩).state = some s →
      StatementState.ofString s = none →
      DatabricksClient.parse_statement_response body =
        .error "invalid StatementState") := by
  refine ⟨by decide, ?_, ?_, ?_⟩
  · intro st
    cases st <;> decide
  · intro sid result hsid hf
    have hcode : stateToHttp StatementState.FAILED = 500 := by decide
    simp only [get_status, hsid]
    simp [hf, json_response, hcode]
  · intro body s hs hn
    refine parse_error_of_state body ?_
    rw [hs]
    simpa using hn

/-- C2 witness: a Failed result through the status handler yields a
500 response whose payload carries the error message. -/
theorem c2_witness :
    pyTruthy (some "abc") = true ∧
    (get_status (some "abc")
        (.ok ⟨"abc", .FAILED, none, none, none, none, none, some "boom"⟩)).response.status_code = 500 ∧
    ("error", optStrField (some "boom")) ∈
      (get_status (some "abc")
        (.ok ⟨"abc", .FAILED, none, none, none, none, none, some "boom"⟩)).response.body := by
  refine ⟨rfl, ?_⟩
  exact c2_state_to_http_table.2.2.1 (some "abc")
    ⟨"abc", .FAILED, none, none, none, none, none, some "boom"⟩ rfl rfl

/-- C4 counterexample: a Chunk request whose chunkIndex is "-1" does
not parse as a non-negative integer, yet the router does not return
bad request — it invokes the Execution Client with the negative
index. -/
theorem c4_counterexample :
    pyInt (some "-1") = some (-1) ∧
    (get_chunk (some "abc") (some "-1")
      (.ok ⟨"abc", .SUCCEEDED, none, none, none, none, none, none⟩)).clientCalled = true ∧
    (get_chunk (some "abc") (some "-1")
      (.ok ⟨"abc", .SUCCEEDED, none, none, none, none, none, none⟩)).response.status_code ≠ 400 := by
  refine ⟨by decide, rfl, by decide⟩

/-- C4 (amended): an Execute request without a non-empty statement
field, or a Chunk request whose statementId is empty or whose
chunkIndex does not parse as an integer (Python int, signs allowed),
is answered bad request with no Execution Client call; a chunkIndex
parsing as a negative integer passes validation. -/
theorem c4_validation_blocks_client :
    (∀ body : Option ExecuteBody, ∀ clientResult : Except String StatementResult,
      (body = none ∨ pyTruthy ((body.getD ⟨none, none⟩).statement) = false) →
      (execute_query body clientResult).response.status_code = 400 ∧
      (execute_query body clientResult).clientCalled = false) ∧
    (∀ sid cis : Option String, ∀ clientResult : Except String StatementResult,
      (pyTruthy sid = false ∨ pyInt cis = none) →
      (get_chunk sid cis clientResult).response.status_code = 400 ∧
      (get_chunk sid cis clientResult).clientCalled = false) := by
  constructor
  · rintro body clientResult (hb | hb)
    · subst hb
      exact ⟨rfl, rfl⟩
    · cases body with
      | none => exact ⟨rfl, rfl⟩
      | some b =>
        simp only [Option.getD] at hb
        simp [execute_query, hb, error_response, json_response]
  · rintro sid cis clientResult (hc | hc)
    · simp [get_chunk, hc, error_response, json_response]
    · by_cases hsid : pyTruthy sid = false
      · simp [get_chunk, hsid, error_response, json_response]
      · simp only [Bool.not_eq_false] at hsid
        simp [get_chunk, hsid, hc, error_response, json_response]

/-- C4 witness: an unparseable chunkIndex is rejected with 400 and no
client call. -/
theorem c4_witness :
    pyInt (some "abc") = none ∧
    (get_chunk (some "abc") (some "abc") (.error "boom")).response.status_code = 400 ∧
    (get_chunk (some "abc") (some "abc") (.error "boom")).clientCalled = false := by
  refine ⟨rfl, ?_⟩
  exact c4_validation_blocks_client.2 (some "abc") (some "abc") (.error "boom")
    (Or.inr rfl)

/-- C5 counterexample: a Poll (status) call failing with a 404-class
remote error is answered with the generic 500 error response, not a
distinct gone outcome. -/
theorem c5_counterexample :
    is404Class "404 Not Found" = true ∧
    (get_status (some "abc") (.error "404 Not Found")).response =
      ⟨500, [("error", .fstr "404 Not Found")]⟩ ∧
    (get_status (some "abc") (.error "404 Not Found")).response.status_code ≠ 410 := by
  refine ⟨by decide, rfl, by decide⟩

/-- C5 (amended): a FetchChunk call failing with a 404-class remote
error is mapped to 410 gone carrying the fixed resubmit message,
distinct from the 500 of every other FetchChunk failure; a Poll
failure is always mapped to the generic 500 with the raw message,
404-class included. -/
theorem c5_not_found_mapping :
    (∀ sid cis : Option String, ∀ ci : Int, ∀ e : String,
      pyTruthy sid = true → pyInt cis = some ci → is404Class e = true →
      (get_chunk sid cis (.error e)).response =
        ⟨410, [("error",
          .fstr "Statement not found or cache expired. Re-execute query.")]⟩) ∧
    (∀ sid cis : Option String, ∀ ci : Int, ∀ e : String,
      pyTruthy sid = true → pyInt cis = some ci → is404Class e = false →
      (get_chunk sid cis (.error e)).response = ⟨500, [("error", .fstr e)]⟩) ∧
    (∀ sid : Option String, ∀ e : String, pyTruthy sid = true →
      (get_status sid (.error e)).response = ⟨500, [("error", .fstr e)]⟩) := by
  refine ⟨?_, ?_, ?_⟩
  · intro sid cis ci e hsid hci he
    simp [get_chunk, hsid, hci, he, error_response, json_response]
  · intro sid cis ci e hsid hci he
    simp [get_chunk, hsid, hci, he, error_response, json_response]
  · intro sid e hsid
    simp [get_status, hsid, error_response, json_response]

/-- C5 witness: a concrete 404-class chunk failure yields the gone
response. -/
theorem c5_witness :
    pyTruthy (some "abc") = true ∧ pyInt (some "0") = some 0 ∧
    is404Class "http 404" = true ∧
    (get_chunk (some "abc") (some "0") (.error "http 404")).response =
      ⟨410, [("error",
        .fstr "Statement not found or cache expired. Re-execute query.")]⟩ :=
  ⟨rfl, by decide, by decide,
    c5_not_found_mapping.1 (some "abc") (some "0") 0 "http 404" rfl (by decide)
      (by decide)⟩

/-- C6 counterexample: a successful FetchChunk whose 200 body carries
no chunk_index yields a StatementResult with chunk_index none, so
chunk_index is not always set. -/
theorem c6_counterexample :
    DatabricksClient.get_chunk "abc" 0 (.ok ⟨none, some [[Cell.cnum 1]]⟩) =
      .ok ⟨"abc", .SUCCEEDED, none, none, none, some [[Cell.cnum 1]], none, none⟩ ∧
    (⟨"abc", .SUCCEEDED, none, none, none, some [[Cell.cnum 1]], none, none⟩ :
      StatementResult).chunk_index = none :=
  ⟨rfl, rfl⟩

/-- C6 (amended): every successful FetchChunk yields state Succeeded,
chunk_index and data taken from the response body (absent when the
body omits them), and no column or manifest information; the outbound
chunk response carries exactly the fields chunkIndex, rowCount and
data — never columns or totalChunks. -/
theorem c6_chunk_shape :
    (∀ sid : String, ∀ ci : Int, ∀ body : ChunkResponseBody,
      DatabricksClient.get_chunk sid ci (.ok body) =
        .ok ⟨sid, .SUCCEEDED, none, none, none, body.data_array,
          body.chunk_index, none⟩) ∧
    (∀ sid cis : Option String, ∀ r : StatementResult,
      pyTruthy sid = true → pyInt cis ≠ none →
      (get_chunk sid cis (.ok r)).response.body.map Prod.fst =
        ["chunkIndex", "rowCount", "data"] ∧
      (get_chunk sid cis (.ok r)).response.status_code = 200) := by
  constructor
  · intro sid ci body
    rfl
  · intro sid cis r hsid hci
    cases hpc : pyInt cis with
    | none => exact absurd hpc hci
    | some ci => simp [get_chunk, hsid, hpc, json_response]

/-- C6 witness: a concrete chunk response is rendered with exactly the
three chunk fields. -/
theorem c6_witness :
    pyTruthy (some "abc") = true ∧
    (get_chunk (some "abc") (some "3")
        (.ok ⟨"abc", .SUCCEEDED, none, none, none, some [[Cell.cnum 1]],
          some 3, none⟩)).response.body.map Prod.fst =
      ["chunkIndex", "rowCount", "data"] :=
  ⟨rfl,
    (c6_chunk_shape.2 (some "abc") (some "3")
      ⟨"abc", .SUCCEEDED, none, none, none, some [[Cell.cnum 1]], some 3, none⟩
      rfl (by decide)).1⟩

/-- C7: when Submit already returned inline data for a Succeeded
statement, the execute handler embeds the first chunk with chunkIndex
0, rowCount equal to the number of returned rows and the data itself;
in particular the documented SELECT 1 scenario yields exactly
statementId, state SUCCEEDED and that firstChunk. -/
theorem c7_inline_first_chunk :
    (∀ stmt : String, ∀ params : Option (List (String × String)),
      ∀ result : StatementResult, ∀ rows : List (List Cell),
      pyTruthy (some stmt) = true → result.state = .SUCCEEDED →
      result.data = some rows →
      ("firstChunk", JField.fchunk 0 rows.length rows) ∈
        (execute_query (some ⟨some stmt, params⟩) (.ok result)).response.body) ∧
    (execute_query (some ⟨some "SELECT 1", none⟩)
        (DatabricksClient.execute_statement
          (.ok ⟨none, some ⟨some "SUCCEEDED", none⟩, none,
            some ⟨some [[Cell.cnum 1]], none⟩⟩)) =
      ⟨⟨200, [("statementId", .fstr ""), ("state", .fstr "SUCCEEDED"),
              ("firstChunk", .fchunk 0 1 [[Cell.cnum 1]])]⟩, true⟩) := by
  constructor
  · intro stmt params result rows hstmt hstate hdata
    simp [execute_query, hstmt, hstate, hdata, json_response]
  · rfl

/-- C7 witness: the embedding conjunct instantiated at a concrete
Succeeded result with one inline row. -/
theorem c7_witness :
    pyTruthy (some "SELECT 1") = true ∧
    ("firstChunk", JField.fchunk 0 1 [[Cell.cnum 1]]) ∈
      (execute_query (some ⟨some "SELECT 1", none⟩)
        (.ok ⟨"id1", .SUCCEEDED, none, none, none, some [[Cell.cnum 1]],
          none, none⟩)).response.body := by
  refine ⟨rfl, ?_⟩
  have h := c7_inline_first_chunk.1 "SELECT 1" none
    ⟨"id1", .SUCCEEDED, none, none, none, some [[Cell.cnum 1]], none, none⟩
    [[Cell.cnum 1]] rfl rfl rfl
  simpa using h

/-- C8 counterexample: on a non-200 remote cancel status the client
returns false without raising, but the router reports a 500 error
payload "Failed to cancel", not a cancelled false acknowledgment. -/
theorem c8_counterexample :
    DatabricksClient.cancel_statement 403 = false ∧
    (cancel_query (some "abc")
        (.ok (DatabricksClient.cancel_statement 403))).response =
      ⟨500, [("error", .fstr "Failed to cancel")]⟩ ∧
    (cancel_query (some "abc")
        (.ok (DatabricksClient.cancel_statement 403))).response.body ≠
      [("cancelled", .fbool false)] := by
  refine ⟨rfl, rfl, by decide⟩

/-- C8 (amended): Cancel returns true exactly when the remote status
code is 200 (any other code, success or not, gives false) and never
raises for such a response; the router reports a false outcome as a
500 error response "Failed to cancel" and a true outcome as a 200
cancelled acknowledgment. -/
theorem c8_cancel_best_effort :
    (∀ code : Nat, DatabricksClient.cancel_statement code = true ↔ code = 200) ∧
    (∀ sid : Option String, pyTruthy sid = true →
      (cancel_query sid (.ok false)).response =
        ⟨500, [("error", .fstr "Failed to cancel")]⟩ ∧
      (cancel_query sid (.ok true)).response =
        ⟨200, [("cancelled", .fbool true)]⟩) := by
  constructor
  · intro code
    simp [DatabricksClient.cancel_statement]
  · intro sid hsid
    constructor
    · simp [cancel_query, hsid, error_response, json_response]
    · simp [cancel_query, hsid, json_response]

/-- C8 witness: instantiation at a concrete statement id, both
outcomes. -/
theorem c8_witness :
    pyTruthy (some "abc") = true ∧
    (cancel_query (some "abc") (.ok false)).response =
      ⟨500, [("error", .fstr "Failed to cancel")]⟩ ∧
    (cancel_query (some "abc") (.ok true)).response =
      ⟨200, [("cancelled", .fbool true)]⟩ :=
  ⟨rfl, c8_cancel_best_effort.2 (some "abc") rfl⟩

/-- C9 counterexample: with the host unset, a well-formed execute
request is still served — the constructor ValueError is caught by the
handler and answered as a per-request 500 response, not a startup
failure. -/
theorem c9_counterexample :
    DatabricksClient.init "" "token" "wh" = .error missingConfigMsg ∧
    execute_query (some ⟨some "SELECT 1", none⟩)
        (configuredExecute "" "token" "wh"
          (.ok ⟨some "id1", some ⟨some "SUCCEEDED", none⟩, none, none⟩)) =
      ⟨⟨500, [("error", .fstr missingConfigMsg)]⟩, true⟩ :=
  ⟨rfl, rfl⟩

/-- C9 (amended): the client constructor raises ValueError exactly when
a required configuration value (host after stripping slashes, token,
warehouse id) is empty; since the client is built lazily inside each
handler, the missing configuration surfaces as a per-request 500 error
response carrying the ValueError message, not as a startup failure. -/
theorem c9_missing_config :
    (∀ host token wh : String,
      ((rstripSlashes host = "" ∨ token = "" ∨ wh = "") ↔
        DatabricksClient.init host token wh = .error missingConfigMsg)) ∧
    (∀ host token wh stmt : String, ∀ params : Option (List (String × String)),
      ∀ remote : Except String StatementResponseBody,
      (rstripSlashes host = "" ∨ token = "" ∨ wh = "") →
      pyTruthy (some stmt) = true →
      execute_query (some ⟨some stmt, params⟩)
          (configuredExecute host token wh remote) =
        ⟨⟨500, [("error", .fstr missingConfigMsg)]⟩, true⟩) := by
  constructor
  · intro host token wh
    constructor
    · intro h
      simp [DatabricksClient.init, h]
    · intro h
      by_cases hc : rstripSlashes host = "" ∨ token = "" ∨ wh = ""
      · exact hc
      · simp [DatabricksClient.init, hc] at h
  · intro host token wh stmt params remote hc hstmt
    have hinit : DatabricksClient.init host token wh = .error missingConfigMsg := by
      simp [DatabricksClient.init, hc]
    simp [execute_query, configuredExecute, hinit, hstmt, error_response,
      json_response]

/-- C9 witness: a host of only slashes strips to empty and yields the
per-request configuration error response. -/
theorem c9_witness :
    rstripSlashes "///" = "" ∧
    execute_query (some ⟨some "SELECT 1", none⟩)
        (configuredExecute "///" "t" "w" (.error "unused")) =
      ⟨⟨500, [("error", .fstr missingConfigMsg)]⟩, true⟩ :=
  ⟨rfl, c9_missing_config.2 "///" "t" "w" "SELECT 1" none (.error "unused")
    (Or.inl rfl) rfl⟩

/-- C10: for every chunk request whose remote call returns a 200 body,
the outbound response is a 200 whose rowCount is the number of rows in
the returned data (0 when the body carries no data_array, with data
null, and chunkIndex null when the body carries no chunk_index). -/
theorem c10_chunk_row_count (sid : String) (cis : Option String) (ci : Int)
    (body : ChunkResponseBody)
    (hsid : pyTruthy (some sid) = true) (hci : pyInt cis = some ci) :
    get_chunk (some sid) cis (DatabricksClient.get_chunk sid ci (.ok body)) =
      ⟨⟨200, [("chunkIndex", optIntField body.chunk_index),
              ("rowCount", JField.fnum
                (match body.data_array with
                 | some rows => (rows.length : Int)
                 | none => 0)),
              ("data", optDataField body.data_array)]⟩, true⟩ := by
  cases hd : body.data_array with
  | none => simp [get_chunk, DatabricksClient.get_chunk, hsid, hci, hd,
      json_response]
  | some rows =>
    by_cases hrows : rows = []
    · subst hrows
      simp [get_chunk, DatabricksClient.get_chunk, hsid, hci, hd, json_response]
    · simp [get_chunk, DatabricksClient.get_chunk, hsid, hci, hd, hrows,
        json_response]

/-- C10 witness: a concrete two-row chunk body renders with rowCount 2,
and an empty body renders 200 with rowCount 0 and nulls. -/
theorem c10_witness :
    pyTruthy (some "abc") = true ∧ pyInt (some "2") = some 2 ∧
    get_chunk (some "abc") (some "2")
        (DatabricksClient.get_chunk "abc" 2
          (.ok ⟨some 2, some [[Cell.cnum 1], [Cell.cnum 2]]⟩)) =
      ⟨⟨200, [("chunkIndex", optIntField (some 2)),
              ("rowCount", JField.fnum 2),
              ("data", optDataField (some [[Cell.cnum 1], [Cell.cnum 2]]))]⟩,
        true⟩ := by
  refine ⟨rfl, by decide, ?_⟩
  exact c10_chunk_row_count "abc" (some "2") 2
    ⟨some 2, some [[Cell.cnum 1], [Cell.cnum 2]]⟩ rfl (by decide)
